import Mathlib

/-!
# Verification of the ai-sre MCP gateway

A shallow embedding, in Lean 4, of the command-execution subsystem and the
JSON-RPC 2.0 protocol dispatcher of the ai-sre repository
(`src/mcp_server_protocol.py`; the `CommandExecutor` in `src/mcp_server.py`
is byte-identical to the one embedded here).

Modelling conventions:
* Python values flowing through argument dictionaries are embedded as `JVal`.
* The operating system is an explicit oracle: each process invocation is
  given a `ProcBehavior` describing what the spawned process would do.
  `asyncio` scheduling is sequential within one connection in the source, so
  the dispatcher is a function threading an explicit state (`St`) that
  records the oracle position and the argv of every process invocation.
* `json.dumps` serialization of response payloads is not modelled: response
  bodies are kept structured (`ResBody`).  `json.loads` on tool output is
  abstracted as a context function (no claim depends on its behaviour).
* Durations are wall-clock seconds as integers.
-/

/-- Embedded Python/JSON value, as carried in message params and tool
arguments. -/
inductive JVal where
  | s (v : String)
  | i (v : Int)
  | b (v : Bool)
  | null
  | arr (elems : List JVal)
  | obj (fields : List (String × JVal))
deriving Repr, BEq

/-- An argument dictionary (Python `dict`, insertion-ordered). -/
abbrev Dict := List (String × JVal)

/-- Python `d.get(key)`: first binding wins (Python dict keys are unique). -/
def dget (d : Dict) (key : String) : Option JVal :=
  (d.find? (fun p => p.1 = key)).map (fun p => p.2)

/-- Python truthiness of a value fetched with `.get` (absent key gives
`None`, which is falsy). -/
def pyTruthy : Option JVal → Bool
  | none => false
  | some (.s v) => !v.isEmpty
  | some (.i n) => n != 0
  | some (.b v) => v
  | some .null => false
  | some (.arr es) => !es.isEmpty
  | some (.obj fs) => !fs.isEmpty

/-- Python `str()` of a fetched value, as interpolated into f-strings.
The reprs of lists and dicts are elided (no claim inspects them). -/
def pyStrGet : Option JVal → String
  | none => "None"
  | some (.s v) => v
  | some (.i n) => toString n
  | some (.b true) => "True"
  | some (.b false) => "False"
  | some .null => "None"
  | some (.arr _) => "<list>"
  | some (.obj _) => "<dict>"

/-- An argv slot.  A missing value (Python `None`) or a non-`str` value in
an argv position makes `create_subprocess_exec` (or the dry-run
`' '.join`) raise `TypeError`; both poison states are modelled as `none`. -/
def argOf : Option JVal → Option String
  | some (.s v) => some v
  | _ => none

/-- Python `args.get(key, dflt)` for a string-valued field with a string default,
placed in an argv slot. -/
def argD (args : Dict) (key dflt : String) : Option String :=
  match dget args key with
  | none => some dflt
  | some v => argOf (some v)

/-- Python whitespace for `str.strip()`: space, tab, newline, carriage
return, vertical tab, form feed. -/
def pySpace (c : Char) : Bool :=
  c == ' ' || c == '\t' || c == '\n' || c == '\r' ||
    c == '\x0b' || c == '\x0c'

/-- Python `s.strip()`: drop leading and trailing whitespace. -/
def pyStrip (s : String) : String :=
  ⟨((s.data.dropWhile pySpace).reverse.dropWhile pySpace).reverse⟩

/-! ## Command Execution Subsystem (`CommandExecutor`, lines 71-144) -/

/-- The executor configuration read in `CommandExecutor.__init__` from the
environment (`AGENT_WORKDIR`, `COMMAND_TIMEOUT`, `DRY_RUN`), plus the base
process environment `os.environ`. -/
structure ExecConfig where
  workdir : String
  timeoutDefault : Nat
  dryRun : Bool
  baseEnv : List (String × String)
deriving Repr, DecidableEq

/-- What the OS does for one process invocation: the spawn itself fails
(`create_subprocess_exec` raises; `diag` is `str(e)`), or a process runs
for `runTime` seconds and exits with `exitCode` producing the given
streams. -/
inductive ProcBehavior where
  | spawnFail (diag : String)
  | runs (exitCode : Int) (outS errS : String) (runTime : Nat)
deriving Repr, DecidableEq

/-- The structured result dict returned by `CommandExecutor.execute`. -/
structure ExecResult where
  success : Bool
  stdout : String
  stderr : String
  exitcode : Int
  duration : Nat
deriving Repr, DecidableEq

/-- The result together with the observable side effects of one
`execute` call: whether an OS process was created, and whether it is still
running when the call returns. -/
structure ExecOutcome where
  res : ExecResult
  spawned : Bool
  leftRunning : Bool
  spawnCwd : String
  spawnEnv : List (String × String)
deriving Repr, DecidableEq

/-- Python `timeout or self.timeout`: `None` and `0` are falsy, so both
fall back to the configured default. -/
def effTimeout (cfg : ExecConfig) (t : Option Nat) : Nat :=
  match t with
  | none => cfg.timeoutDefault
  | some n => if n = 0 then cfg.timeoutDefault else n

/-- Models `' '.join(command)`: `none` if any element is not a `str`
(`TypeError`). -/
def joinArgv (argv : List (Option String)) : Option String :=
  if argv.all Option.isSome then
    some (String.intercalate " " (argv.filterMap id))
  else none

/-- Models `os.environ.copy()` followed by `update(env)`: override keys replace
base entries, lookups see overrides first. -/
def mergeEnv (base : List (String × String)) :
    Option (List (String × String)) → List (String × String)
  | none => base
  | some ov => (base.filter (fun p => ov.all (fun q => q.1 ≠ p.1))) ++ ov

/-- Embeds `CommandExecutor.execute` (mcp_server_protocol.py lines 79-144).
An `Except.error` is a Python exception escaping `execute` itself: the only
such path is the dry-run branch, whose `' '.join` runs before the
`try` block and raises `TypeError` on a non-`str` argv element.  Inside the
`try` block, a poisoned argv makes `create_subprocess_exec` raise
`TypeError`, which the `except Exception` handler converts to a result
(spawn-failure shape); its exact message and the elapsed duration are
modelled as fixed values. -/
def execute (cfg : ExecConfig) (command : List (Option String))
    (cwd : Option String) (env : Option (List (String × String)))
    (t : Option Nat) (b : ProcBehavior) : Except String ExecOutcome :=
  if cfg.dryRun then
    match joinArgv command with
    | some line =>
        .ok { res := { success := true, stdout := "DRY RUN: " ++ line,
                       stderr := "", exitcode := 0, duration := 0 },
              spawned := false, leftRunning := false,
              spawnCwd := "", spawnEnv := [] }
    | none => .error "sequence item: expected str instance, NoneType found"
  else
    let cmdEnv := mergeEnv cfg.baseEnv env
    let runCwd := cwd.getD cfg.workdir
    if command.all Option.isSome && !command.isEmpty then
      match b with
      | .spawnFail diag =>
          .ok { res := { success := false, stdout := "", stderr := diag,
                         exitcode := -1, duration := 0 },
                spawned := false, leftRunning := false,
                spawnCwd := runCwd, spawnEnv := cmdEnv }
      | .runs ec outS errS rt =>
          if effTimeout cfg t < rt then
            -- asyncio.wait_for raised TimeoutError: the wait is cancelled
            -- but nothing terminates the child, so it is left running.
            .ok { res := { success := false, stdout := "",
                           stderr := "Command timed out after " ++
                             toString (effTimeout cfg t) ++ " seconds",
                           exitcode := -1, duration := effTimeout cfg t },
                  spawned := true, leftRunning := true,
                  spawnCwd := runCwd, spawnEnv := cmdEnv }
          else
            .ok { res := { success := decide (ec = 0), stdout := outS,
                           stderr := errS, exitcode := ec, duration := rt },
                  spawned := true, leftRunning := false,
                  spawnCwd := runCwd, spawnEnv := cmdEnv }
    else
      .ok { res := { success := false, stdout := "",
                     stderr := "program arguments must be str", exitcode := -1,
                     duration := 0 },
            spawned := false, leftRunning := false,
            spawnCwd := runCwd, spawnEnv := cmdEnv }

/-! ## JSON-RPC envelope (`MCPMessage`, lines 28-68) -/

/-- A parsed JSON-RPC message, restricted to the keys the dispatcher
reads.  `none` means the key is absent; `params` values other than objects
are carried as-is (handlers raise `AttributeError` on them, modelled
below).  Non-object top-level payloads are outside the model. -/
structure Message where
  jsonrpc : Option JVal
  id : Option JVal
  method : Option JVal
  params : Option JVal
deriving Repr

/-- Embeds `MCPMessage.validate_message` (lines 59-68). -/
def validateMessage (m : Message) : Bool :=
  (match m.jsonrpc with
   | some (.s v) => v == "2.0"
   | _ => false)
  && (m.method.isSome || m.id.isSome)

/-- Does the message's `method` equal the given string? (Python `==`
against a string constant; any non-string method value compares false.) -/
def methodIs (m : Message) (name : String) : Bool :=
  match m.method with
  | some (.s v) => v == name
  | _ => false

/-- A JSON-RPC error object. -/
structure ErrObj where
  code : Int
  msg : String
deriving Repr

/-- A tool descriptor from the static registry built in
`_initialize_tools` (lines 168-381): its name, description, declared
property names and the `required` list of its `inputSchema`.  Per-property
descriptions, types and defaults are elided (no claim inspects them). -/
structure ToolSpec where
  name : String
  descr : String
  fields : List String
  requiredFields : List String
deriving Repr, DecidableEq

/-- The tool registry, in dict insertion order (`self.tools`). -/
def toolsRegistry : List ToolSpec :=
  [ ⟨"kubectl_get", "Execute kubectl get commands",
      ["resource", "namespace", "name", "output"], ["resource"]⟩,
    ⟨"kubectl_describe", "Execute kubectl describe commands",
      ["resource", "name", "namespace"], ["resource", "name"]⟩,
    ⟨"kubectl_logs", "Get pod logs",
      ["pod", "namespace", "container", "lines"], ["pod"]⟩,
    ⟨"flux_status", "Get Flux GitOps status",
      ["namespace", "resource"], []⟩,
    ⟨"git_status", "Get git repository status", ["path"], []⟩,
    ⟨"cli_tool", "Execute CLI tools (jq, grep, sed, etc.)",
      ["tool", "args", "input"], ["tool"]⟩,
    ⟨"health_check", "Check system and service health", ["service"], []⟩,
    ⟨"git_pull", "Pull latest changes from the Kubernetes Git repository",
      ["branch", "force"], []⟩,
    ⟨"git_commit", "Commit changes to the Kubernetes Git repository",
      ["message", "files", "all"], ["message"]⟩,
    ⟨"git_push", "Push changes to the Kubernetes Git repository",
      ["branch", "force"], []⟩ ]

/-- The registered tool names, in order. -/
def toolNames : List String := toolsRegistry.map (fun t => t.name)

/-- The `required` list of a registered tool's `inputSchema`. -/
def requiredOf (name : String) : List String :=
  match toolsRegistry.find? (fun t => t.name = name) with
  | some t => t.requiredFields
  | none => []

/-- A resource descriptor from `_initialize_resources` (lines 383-409). -/
structure ResourceSpec where
  uri : String
  name : String
  descr : String
  mimeType : String
deriving Repr, DecidableEq

/-- The static resource registry (`self.resources`), in order. -/
def resourcesRegistry : List ResourceSpec :=
  [ ⟨"config://main", "Main Configuration", "Main server configuration",
      "application/json"⟩,
    ⟨"version://info", "Version Information",
      "Server version and tool information", "application/json"⟩,
    ⟨"tools://list", "Available Tools", "List of available CLI tools",
      "application/json"⟩ ]

/-- The dict `self.server_info` as a JSON value. -/
def serverInfoJ : JVal :=
  .obj [("name", .s "ai-sre-mcp-server"), ("version", .s "1.0.0")]

/-- The dict `self.capabilities` after tool and resource initialization. -/
def serverCapabilities : List (String × JVal) :=
  [ ("tools", .obj [("listChanged", .b true)]),
    ("resources", .obj [("listChanged", .b true), ("subscribe", .b true)]),
    ("prompts", .obj []) ]

/-- A tool handler's result dict. -/
abbrev ToolDict := List (String × JVal)

/-- The possible `result` payloads of a response, kept structured
(`json.dumps` is outside the model; `toolsCallContent` is the single
text content block of a `tools/call` result). -/
inductive ResBody where
  | initResult (protocolVersion : String)
      (capabilities : List (String × JVal)) (serverInfo : JVal)
  | toolsList (tools : List ToolSpec)
  | toolsCallContent (text : ToolDict)
  | resourcesList (resources : List ResourceSpec)
  | resourcesRead (uri : String) (mimeType : String) (text : ToolDict)
deriving Repr

/-- A JSON-RPC response (`jsonrpc: "2.0"` is implicit). -/
structure Response where
  id : JVal
  result : Option ResBody
  error : Option ErrObj
deriving Repr

/-- Embeds `MCPMessage.create_response` (lines 32-44): the error key wins when an
error is supplied, otherwise the result key is set. -/
def mkResponse (id : JVal) (result : Option ResBody) (error : Option ErrObj) :
    Response :=
  if error.isSome then ⟨id, none, error⟩ else ⟨id, result, none⟩

/-! ## Dispatcher context and state -/

/-- The ambient context of one `MCPServer`: the executor configuration,
the values read from the process environment and filesystem by the git
handlers, the current clock reading, the behaviour of Python `json.loads`
(abstracted; `none` models `JSONDecodeError`), and the OS oracle giving
the behaviour of the n-th process invocation. -/
structure Ctx where
  cfg : ExecConfig
  k8sRepoPath : String
  gitRepoExists : Bool
  nowIso : String
  jsonLoads : String → Option JVal
  oracle : Nat → ProcBehavior

/-- Sequential execution state: the oracle position and the argv of every
process invocation made so far (via `executor.execute` or the direct
piped spawn in `_cli_tool`), in order. -/
structure St where
  k : Nat
  calls : List (List (Option String))
deriving Repr

/-- One `executor.execute(...)` invocation: consumes the next oracle
behaviour and records the argv.  An `Except.error` is an exception
escaping `execute` (dry-run `' '.join` on a poisoned argv). -/
def callExec (ctx : Ctx) (argv : List (Option String)) (cwd : Option String)
    (t : Option Nat) (st : St) : Except String ExecResult × St :=
  let b := ctx.oracle st.k
  let st1 : St := ⟨st.k + 1, st.calls ++ [argv]⟩
  match execute ctx.cfg argv cwd none t b with
  | .ok o => (.ok o.res, st1)
  | .error e => (.error e, st1)

/-- An `ExecResult` rendered as the Python result dict, in key order. -/
def execResultDict (r : ExecResult) : ToolDict :=
  [ ("success", .b r.success), ("stdout", .s r.stdout),
    ("stderr", .s r.stderr), ("exitcode", .i r.exitcode),
    ("duration", .i r.duration) ]

/-! ## Tool handlers (`MCPServer._kubectl_get` .. `_git_push`,
lines 476-807) -/

/-- Embeds `_kubectl_get` (lines 476-502). -/
def kubectlGet (ctx : Ctx) (args : Dict) (st : St) :
    Except String ToolDict × St :=
  let resource := dget args "resource"
  let ns := argD args "namespace" "default"
  let nameV := dget args "name"
  let outputV := dget args "output"
  let cmd : List (Option String) :=
    [some "kubectl", some "get", some "-n", ns, argOf resource]
      ++ (if pyTruthy nameV then [argOf nameV] else [])
      ++ [some "-o",
          match outputV with
          | none => some "json"
          | some v => argOf (some v)]
  match callExec ctx cmd none none st with
  | (.error e, st1) => (.error e, st1)
  | (.ok res, st1) =>
    let base := execResultDict res
    let outIsJson : Bool :=
      match outputV with
      | none => true
      | some (.s v) => v == "json"
      | some _ => false
    if outIsJson && res.success then
      match ctx.jsonLoads res.stdout with
      | some d => (.ok (base ++ [("data", d)]), st1)
      | none => (.ok (base ++ [("data", .s res.stdout)]), st1)
    else (.ok base, st1)

/-- Embeds `_kubectl_describe` (lines 504-516): `resource` and `name` are
appended unconditionally. -/
def kubectlDescribe (ctx : Ctx) (args : Dict) (st : St) :
    Except String ToolDict × St :=
  let cmd : List (Option String) :=
    [some "kubectl", some "describe", some "-n",
     argD args "namespace" "default",
     argOf (dget args "resource"), argOf (dget args "name")]
  match callExec ctx cmd none none st with
  | (.error e, st1) => (.error e, st1)
  | (.ok res, st1) => (.ok (execResultDict res), st1)

/-- Embeds `_kubectl_logs` (lines 518-535): `lines` goes through `str(...)`. -/
def kubectlLogs (ctx : Ctx) (args : Dict) (st : St) :
    Except String ToolDict × St :=
  let container := dget args "container"
  let linesStr :=
    match dget args "lines" with
    | none => "100"
    | some v => pyStrGet (some v)
  let cmd : List (Option String) :=
    [some "kubectl", some "logs", some "-n", argD args "namespace" "default",
     some "--tail", some linesStr]
      ++ (if pyTruthy container then [some "-c", argOf container] else [])
      ++ [argOf (dget args "pod")]
  match callExec ctx cmd none none st with
  | (.error e, st1) => (.error e, st1)
  | (.ok res, st1) => (.ok (execResultDict res), st1)

/-- Embeds `_flux_status` (lines 537-547). -/
def fluxStatus (ctx : Ctx) (args : Dict) (st : St) :
    Except String ToolDict × St :=
  let cmd : List (Option String) :=
    [some "flux", some "get", some "-n", argD args "namespace" "flux-system",
     argD args "resource" "all"]
  match callExec ctx cmd none none st with
  | (.error e, st1) => (.error e, st1)
  | (.ok res, st1) => (.ok (execResultDict res), st1)

/-- Embeds `_git_status` (lines 549-554): `path` is passed as the working
directory.  A non-string `path` value would make the spawn raise; that
corner is outside the model (the cwd does not influence the oracle). -/
def gitStatus (ctx : Ctx) (args : Dict) (st : St) :
    Except String ToolDict × St :=
  let path := argD args "path" "/app/k8s-repo"
  match callExec ctx [some "git", some "status", some "--porcelain"]
      path none st with
  | (.error e, st1) => (.error e, st1)
  | (.ok res, st1) => (.ok (execResultDict res), st1)

/-- The direct piped spawn in `_cli_tool` (lines 566-580): no dry-run
check, no timeout, no exception handler, and no `duration` key in the
result.  A spawn failure propagates as an exception. -/
def pipedSpawn (ctx : Ctx) (cmd : List (Option String)) (st : St) :
    Except String ToolDict × St :=
  let b := ctx.oracle st.k
  let st1 : St := ⟨st.k + 1, st.calls ++ [cmd]⟩
  if cmd.all Option.isSome && !cmd.isEmpty then
    match b with
    | .spawnFail diag => (.error diag, st1)
    | .runs ec outS errS _ =>
        (.ok [("success", .b (decide (ec = 0))), ("stdout", .s outS),
              ("stderr", .s errS), ("exitcode", .i ec)], st1)
  else (.error "program arguments must be str", st1)

/-- Embeds `_cli_tool` (lines 556-582): with truthy `input` the piped spawn runs,
otherwise the executor is used.  A non-list `args` value raises
(`list + non-list`); a truthy non-string `input` raises at `.encode`
after the spawn. -/
def cliTool (ctx : Ctx) (args : Dict) (st : St) :
    Except String ToolDict × St :=
  let toolV := dget args "tool"
  let inputV := dget args "input"
  match
    (match dget args "args" with
     | none => Except.ok []
     | some (.arr es) => Except.ok (es.map (fun v => argOf (some v)))
     | some _ => Except.error "can only concatenate list to list") with
  | .error e => (.error e, st)
  | .ok toolArgs =>
    let cmd := argOf toolV :: toolArgs
    if pyTruthy inputV then
      match inputV with
      | some (.s _) => pipedSpawn ctx cmd st
      | _ =>
        -- the spawn happens before `.encode` raises AttributeError
        match pipedSpawn ctx cmd st with
        | (.ok _, st1) => (.error "object has no attribute encode", st1)
        | (.error e, st1) => (.error e, st1)
    else
      match callExec ctx cmd none none st with
      | (.error e, st1) => (.error e, st1)
      | (.ok res, st1) => (.ok (execResultDict res), st1)

/-- Embeds `_health_check` (lines 584-604).  The service name is interpolated
into the URL with `str()`; the literal `-w` format is `%{http_code}`. -/
def healthCheck (ctx : Ctx) (args : Dict) (st : St) :
    Except String ToolDict × St :=
  let service := dget args "service"
  if pyTruthy service then
    let cmd : List (Option String) :=
      [some "curl", some "-s", some "-o", some "/dev/null", some "-w",
       some "%\x7bhttp_code\x7d",
       some ("http://" ++ pyStrGet service ++ ":8080/health")]
    match callExec ctx cmd none none st with
    | (.error e, st1) => (.error e, st1)
    | (.ok res, st1) =>
        (.ok [("service", service.getD .null),
              ("status",
               .s (if res.success && pyStrip res.stdout == "200"
                   then "healthy" else "unhealthy")),
              ("response_code", .s (pyStrip res.stdout))], st1)
  else
    (.ok [("status", .s "healthy"), ("timestamp", .s ctx.nowIso),
          ("server", serverInfoJ)], st)

/-- The `success=False` dict returned when `repo_path/.git` is missing
(shared by the three git handlers). -/
def gitRepoMissingDict (repo : String) : ToolDict :=
  [("success", .b false),
   ("error", .s ("Git repository not found at " ++ repo ++
     ". Make sure K8S_GIT_REPO is configured."))]

/-- Branch resolution shared by `_git_pull` and `_git_push`: a truthy
`branch` argument is used as-is, otherwise `git branch --show-current`
is consulted, falling back to `"main"` on failure. -/
def resolveBranch (ctx : Ctx) (args : Dict) (st : St) :
    Except String JVal × St :=
  let branchArg := dget args "branch"
  if pyTruthy branchArg then (.ok (branchArg.getD .null), st)
  else
    match callExec ctx [some "git", some "branch", some "--show-current"]
        (some ctx.k8sRepoPath) none st with
    | (.error e, st1) => (.error e, st1)
    | (.ok res, st1) =>
        (.ok (.s (if res.success then pyStrip res.stdout else "main")), st1)

/-- The body of the `try` block of `_git_pull` (lines 618-672). -/
def gitPullBody (ctx : Ctx) (args : Dict) (st : St) :
    Except String ToolDict × St :=
  let repo := ctx.k8sRepoPath
  let force := pyTruthy (dget args "force")
  let forceV := (dget args "force").getD (.b false)
  match resolveBranch ctx args st with
  | (.error e, st1) => (.error e, st1)
  | (.ok branchV, st1) =>
    match callExec ctx [some "git", some "fetch", some "origin"]
        (some repo) none st1 with
    | (.error e, st2) => (.error e, st2)
    | (.ok fres, st2) =>
      if !fres.success then
        (.ok [("success", .b false),
              ("error", .s ("Failed to fetch from origin: " ++
                fres.stderr))], st2)
      else
        match
          (if force then
            match callExec ctx
                [some "git", some "reset", some "--hard",
                 some ("origin/" ++ pyStrGet (some branchV))]
                (some repo) none st2 with
            | (.error e, st3) => (Except.error e, st3)
            | (.ok rres, st3) =>
              if !rres.success then
                (Except.ok (some
                  [("success", JVal.b false),
                   ("error", JVal.s ("Failed to reset to origin/" ++
                     pyStrGet (some branchV) ++ ": " ++ rres.stderr))]), st3)
              else (Except.ok none, st3)
          else
            match callExec ctx
                [some "git", some "pull", some "origin",
                 argOf (some branchV)] (some repo) none st2 with
            | (.error e, st3) => (Except.error e, st3)
            | (.ok pres, st3) =>
              if !pres.success then
                (Except.ok (some
                  [("success", JVal.b false),
                   ("error", JVal.s ("Failed to pull from origin/" ++
                     pyStrGet (some branchV) ++ ": " ++ pres.stderr))]), st3)
              else (Except.ok none, st3)) with
        | (.error e, st3) => (.error e, st3)
        | (.ok (some errDict), st3) => (.ok errDict, st3)
        | (.ok none, st3) =>
          match callExec ctx
              [some "git", some "status", some "--porcelain"]
              (some repo) none st3 with
          | (.error e, st4) => (.error e, st4)
          | (.ok sres, st4) =>
            match callExec ctx
                [some "git", some "log", some "--oneline", some "-1"]
                (some repo) none st4 with
            | (.error e, st5) => (.error e, st5)
            | (.ok lres, st5) =>
              (.ok [("success", .b true), ("branch", branchV),
                    ("force", forceV),
                    ("status",
                     .s (if sres.success then pyStrip sres.stdout else "")),
                    ("latest_commit",
                     .s (if lres.success then pyStrip lres.stdout else "")),
                    ("message",
                     .s ("Successfully pulled latest changes from origin/" ++
                       pyStrGet (some branchV)))], st5)

/-- Embeds `_git_pull` (lines 606-678): repository-existence guard, then the
`try` body with its `except` clause (exceptions become an error dict;
state reached so far is kept, as in Python). -/
def gitPull (ctx : Ctx) (args : Dict) (st : St) :
    Except String ToolDict × St :=
  if !ctx.gitRepoExists then (.ok (gitRepoMissingDict ctx.k8sRepoPath), st)
  else
    match gitPullBody ctx args st with
    | (.ok d, st1) => (.ok d, st1)
    | (.error e, st1) =>
        (.ok [("success", .b false),
              ("error", .s ("Git pull failed: " ++ e))], st1)

/-- The body of the `try` block of `_git_commit` (lines 693-740). -/
def gitCommitBody (ctx : Ctx) (args : Dict) (st : St) :
    Except String ToolDict × St :=
  let repo := ctx.k8sRepoPath
  let message := dget args "message"
  let filesV := dget args "files"
  let commitAll := pyTruthy (dget args "all")
  match callExec ctx [some "git", some "status", some "--porcelain"]
      (some repo) none st with
  | (.error e, st1) => (.error e, st1)
  | (.ok sres, st1) =>
    if !sres.success || pyStrip sres.stdout == "" then
      (.ok [("success", .b true), ("message", .s "No changes to commit"),
            ("status", .s (pyStrip sres.stdout))], st1)
    else
      match
        (if commitAll then
          Except.ok [some "git", some "add", some "-A"]
        else if pyTruthy filesV then
          match filesV with
          | some (.arr es) =>
              Except.ok ([some "git", some "add"] ++
                es.map (fun v => argOf (some v)))
          | _ => Except.error "can only concatenate list to list"
        else Except.ok [some "git", some "add", some "-u"]) with
      | .error e => (.error e, st1)
      | .ok addCmd =>
        match callExec ctx addCmd (some repo) none st1 with
        | (.error e, st2) => (.error e, st2)
        | (.ok ares, st2) =>
          if !ares.success then
            (.ok [("success", .b false),
                  ("error", .s ("Failed to stage files: " ++
                    ares.stderr))], st2)
          else
            match callExec ctx
                [some "git", some "commit", some "-m", argOf message]
                (some repo) none st2 with
            | (.error e, st3) => (.error e, st3)
            | (.ok cres, st3) =>
              if !cres.success then
                (.ok [("success", .b false),
                      ("error", .s ("Failed to commit: " ++
                        cres.stderr))], st3)
              else
                match callExec ctx
                    [some "git", some "rev-parse", some "HEAD"]
                    (some repo) none st3 with
                | (.error e, st4) => (.error e, st4)
                | (.ok hres, st4) =>
                  (.ok [("success", .b true),
                        ("message",
                         .s ("Successfully committed: " ++
                           pyStrGet message)),
                        ("commit_hash",
                         .s (if hres.success then pyStrip hres.stdout else "")),
                        ("files_committed",
                         if pyTruthy filesV then filesV.getD .null
                         else .s "all modified files")], st4)

/-- Embeds `_git_commit` (lines 680-746). -/
def gitCommit (ctx : Ctx) (args : Dict) (st : St) :
    Except String ToolDict × St :=
  if !ctx.gitRepoExists then (.ok (gitRepoMissingDict ctx.k8sRepoPath), st)
  else
    match gitCommitBody ctx args st with
    | (.ok d, st1) => (.ok d, st1)
    | (.error e, st1) =>
        (.ok [("success", .b false),
              ("error", .s ("Git commit failed: " ++ e))], st1)

/-- The argv of the commits-to-push check in `_git_push` (line 771): the
revision string is a literal — the source has no f-prefix, so the braces
around `branch` are not interpolated. -/
def gitPushCheckArgv : List (Option String) :=
  [some "git", some "log", some "origin/\x7bbranch\x7d..HEAD",
   some "--oneline"]

/-- The body of the `try` block of `_git_push` (lines 760-801). -/
def gitPushBody (ctx : Ctx) (args : Dict) (st : St) :
    Except String ToolDict × St :=
  let repo := ctx.k8sRepoPath
  let force := pyTruthy (dget args "force")
  let forceV := (dget args "force").getD (.b false)
  match resolveBranch ctx args st with
  | (.error e, st1) => (.error e, st1)
  | (.ok branchV, st1) =>
    match callExec ctx gitPushCheckArgv (some repo) none st1 with
    | (.error e, st2) => (.error e, st2)
    | (.ok kres, st2) =>
      -- only the stdout is consulted: a failed check command also has
      -- empty stdout and triggers the early "No commits" return
      if pyStrip kres.stdout == "" then
        (.ok [("success", .b true),
              ("message", .s ("No commits to push to origin/" ++
                pyStrGet (some branchV))),
              ("branch", branchV)], st2)
      else
        match callExec ctx
            ([some "git", some "push", some "origin", argOf (some branchV)]
              ++ (if force then [some "--force"] else []))
            (some repo) none st2 with
        | (.error e, st3) => (.error e, st3)
        | (.ok pres, st3) =>
          if !pres.success then
            (.ok [("success", .b false),
                  ("error", .s ("Failed to push to origin/" ++
                    pyStrGet (some branchV) ++ ": " ++ pres.stderr))], st3)
          else
            (.ok [("success", .b true),
                  ("message", .s ("Successfully pushed to origin/" ++
                    pyStrGet (some branchV))),
                  ("branch", branchV), ("force", forceV),
                  ("commits_pushed", .s (pyStrip pres.stdout))], st3)

/-- Embeds `_git_push` (lines 748-807). -/
def gitPush (ctx : Ctx) (args : Dict) (st : St) :
    Except String ToolDict × St :=
  if !ctx.gitRepoExists then (.ok (gitRepoMissingDict ctx.k8sRepoPath), st)
  else
    match gitPushBody ctx args st with
    | (.ok d, st1) => (.ok d, st1)
    | (.error e, st1) =>
        (.ok [("success", .b false),
              ("error", .s ("Git push failed: " ++ e))], st1)

/-! ## Dispatcher (`MCPServer.handle_*`, `process_message`, lines 411-906) -/

/-- Embeds `handle_initialize` (lines 411-420): the result does not depend on
`params`, but `params.get("clientInfo", ...)` raises `AttributeError` on a
non-dict `params` value. -/
def handleInitialize (params : JVal) : Except String ResBody :=
  match params with
  | .obj _ =>
      .ok (.initResult "2024-11-05" serverCapabilities serverInfoJ)
  | _ => .error "object has no attribute get"

/-- Embeds `_execute_tool` (lines 450-474): string-keyed dispatch.  A non-dict
`arguments` value raises `AttributeError` at the handler's first
`args.get`; that is modelled uniformly here before dispatch. -/
def executeTool (ctx : Ctx) (name : String) (argsv : JVal) (st : St) :
    Except String ToolDict × St :=
  match argsv with
  | .obj args =>
    if name == "kubectl_get" then kubectlGet ctx args st
    else if name == "kubectl_describe" then kubectlDescribe ctx args st
    else if name == "kubectl_logs" then kubectlLogs ctx args st
    else if name == "flux_status" then fluxStatus ctx args st
    else if name == "git_status" then gitStatus ctx args st
    else if name == "cli_tool" then cliTool ctx args st
    else if name == "health_check" then healthCheck ctx args st
    else if name == "git_pull" then gitPull ctx args st
    else if name == "git_commit" then gitCommit ctx args st
    else if name == "git_push" then gitPush ctx args st
    else (.error ("Unknown tool: " ++ name), st)
  | _ => (.error "object has no attribute get", st)

/-- Embeds `handle_tools_call` (lines 428-448): the registry check precedes the
`try` block, so an unknown tool raises `ValueError("Unknown tool: ...")`
unwrapped; exceptions from `_execute_tool` are re-raised wrapped as
`"Tool execution failed: ..."`.  A non-string hashable `name` is not in
the dict (`"Unknown tool: <str(name)>"`); an unhashable one raises
`TypeError` at the `in` check. -/
def handleToolsCall (ctx : Ctx) (params : JVal) (st : St) :
    Except String ResBody × St :=
  match params with
  | .obj ps =>
    let argsv := (dget ps "arguments").getD (.obj [])
    match dget ps "name" with
    | some (.s n) =>
      if toolNames.contains n then
        match executeTool ctx n argsv st with
        | (.ok d, st1) => (.ok (.toolsCallContent d), st1)
        | (.error e, st1) => (.error ("Tool execution failed: " ++ e), st1)
      else (.error ("Unknown tool: " ++ n), st)
    | some (.arr _) => (.error "unhashable type: list", st)
    | some (.obj _) => (.error "unhashable type: dict", st)
    | other => (.error ("Unknown tool: " ++ pyStrGet other), st)
  | _ => (.error "object has no attribute get", st)

/-- The `contents[0].text` dict served for each resource URI by
`handle_resources_read` (lines 822-841). -/
def resourceContent (ctx : Ctx) (uri : String) : ToolDict :=
  if uri == "config://main" then
    [("tools_enabled", .arr (toolNames.map .s)),
     ("server_info", serverInfoJ),
     ("capabilities", .obj serverCapabilities)]
  else if uri == "version://info" then
    [("server", serverInfoJ), ("tools_count", .i 10),
     ("resources_count", .i 3), ("timestamp", .s ctx.nowIso)]
  else if uri == "tools://list" then
    -- the full `self.tools` dict; descriptors are carried as their
    -- registry projection (schema details elided, see `ToolSpec`)
    [("available_tools", .arr (toolNames.map .s)),
     ("tools", .obj (toolsRegistry.map (fun t =>
        (t.name, .obj [("name", .s t.name), ("description", .s t.descr),
          ("inputSchema", .obj
            [("type", .s "object"),
             ("properties", .arr (t.fields.map .s)),
             ("required", .arr (t.requiredFields.map .s))])]))))]
  else [("error", .s "Unknown resource")]

/-- Embeds `handle_resources_read` (lines 815-851). -/
def handleResourcesRead (ctx : Ctx) (params : JVal) :
    Except String ResBody :=
  match params with
  | .obj ps =>
    match dget ps "uri" with
    | some (.s u) =>
      if (resourcesRegistry.map (fun r => r.uri)).contains u then
        .ok (.resourcesRead u "application/json" (resourceContent ctx u))
      else .error ("Unknown resource: " ++ u)
    | other => .error ("Unknown resource: " ++ pyStrGet other)
  | _ => .error "object has no attribute get"

/-- The outcome of the method-routing chain inside the `try` block of
`process_message` (lines 870-899). -/
inductive Routed where
  | body (b : ResBody)
  | noResponse
  | notFound
deriving Repr

/-- The `try` block of `process_message`: route by `method`.  The
`notifications/cancelled` branch runs `handle_notification` (a log
statement) and yields no response; the final `else` is the
method-not-found response. -/
def routeMessage (ctx : Ctx) (m : Message) (st : St) :
    Except String Routed × St :=
  let params := m.params.getD (.obj [])
  if methodIs m "initialize" then
    ((handleInitialize params).map .body, st)
  else if methodIs m "tools/list" then
    (.ok (.body (.toolsList toolsRegistry)), st)
  else if methodIs m "tools/call" then
    match handleToolsCall ctx params st with
    | (.ok b, st1) => (.ok (.body b), st1)
    | (.error e, st1) => (.error e, st1)
  else if methodIs m "resources/list" then
    (.ok (.body (.resourcesList resourcesRegistry)), st)
  else if methodIs m "resources/read" then
    ((handleResourcesRead ctx params).map .body, st)
  else if methodIs m "notifications/cancelled" then
    (.ok .noResponse, st)
  else (.ok .notFound, st)

/-- Embeds `process_message` (lines 858-906): envelope validation first (the
rejection response uses `message.get("id", 0)`), then routing with the
dispatcher-boundary `except` clause turning any exception into an
internal-error response carrying `message.get("id")`. -/
def processMessage (ctx : Ctx) (m : Message) (st : St) :
    Option Response × St :=
  if !validateMessage m then
    (some (mkResponse (m.id.getD (.i 0)) none
      (some ⟨-32600, "Invalid Request"⟩)), st)
  else
    let mid := m.id.getD .null
    match routeMessage ctx m st with
    | (.ok (.body b), st1) => (some (mkResponse mid (some b) none), st1)
    | (.ok .noResponse, st1) => (none, st1)
    | (.ok .notFound, st1) =>
        (some (mkResponse mid none
          (some ⟨-32601, "Method not found: " ++ pyStrGet m.method⟩)), st1)
    | (.error e, st1) =>
        (some (mkResponse mid none
          (some ⟨-32603, "Internal error: " ++ e⟩)), st1)

/-! ## WebSocket transport (`MCPWebSocketHandler.websocket_handler`,
lines 915-956) -/

/-- One inbound text frame: either its payload parsed as JSON, or
`json.loads` raised `JSONDecodeError`. -/
inductive Frame where
  | good (m : Message)
  | badJson
deriving Repr

/-- The parse-error response sent for an unparseable frame (lines
937-941): the id slot is the literal integer `0`. -/
def parseErrorResponse : Response :=
  mkResponse (.i 0) none (some ⟨-32700, "Parse error"⟩)

/-- The per-connection receive loop over text frames: responses are sent
in order; a `None` response (notification) sends nothing; a JSON parse
failure sends the parse-error response and the loop continues. -/
def wsLoop (ctx : Ctx) : List Frame → St → List Response × St
  | [], st => ([], st)
  | .good m :: rest, st =>
      let out := processMessage ctx m st
      let tail := wsLoop ctx rest out.2
      ((match out.1 with | some r => [r] | none => []) ++ tail.1, tail.2)
  | .badJson :: rest, st =>
      let tail := wsLoop ctx rest st
      (parseErrorResponse :: tail.1, tail.2)

/-! ## Shared concrete fixtures -/

/-- A concrete context: dry-run off, repository present, every process
exits 0 immediately with empty streams. -/
def ctx0 : Ctx :=
  { cfg := ⟨"/app/work", 60, false, []⟩, k8sRepoPath := "/app/k8s-repo",
    gitRepoExists := true, nowIso := "2026-10-12T00:00:00",
    jsonLoads := fun _ => none, oracle := fun _ => .runs 0 "" "" 0 }

/-- The initial per-connection state. -/
def st0 : St := ⟨0, []⟩

/-! ## Claim theorems -/

/-- C2 (code_bug evidence): a command given a 1-second per-call timeout
whose process would run for 100 seconds returns exactly the specified
timeout result (`succeeded=false`, `exitCode=-1`, the exact stderr
string) — but the spawned process is left running when `execute` returns:
`asyncio.wait_for` only cancels the wait, and the `except
asyncio.TimeoutError` handler contains no kill/terminate call. -/
theorem execute_timeout_leaves_child_running :
    execute ⟨"/app/work", 60, false, []⟩ [some "sleep", some "100"]
      none none (some 1) (.runs 0 "" "" 100) =
    .ok { res := { success := false, stdout := "",
                   stderr := "Command timed out after 1 seconds",
                   exitcode := -1, duration := 1 },
          spawned := true, leftRunning := true,
          spawnCwd := "/app/work", spawnEnv := [] } := by
  rfl

/-- C3: with dry-run configured, `execute` returns the fabricated result
(`succeeded`, exit code 0, the argv echo, duration 0) for every command,
independent of the working directory, the environment overrides, the
timeout and the would-be process behaviour, and spawns no process: the
dry-run branch is the first check, before environment merging. -/
theorem dry_run_intercepts_everything (cfg : ExecConfig)
    (h : cfg.dryRun = true) (argv : List String) (cwd : Option String)
    (env : Option (List (String × String))) (t : Option Nat)
    (b : ProcBehavior) :
    execute cfg (argv.map some) cwd env t b =
    .ok { res := { success := true,
                   stdout := "DRY RUN: " ++ String.intercalate " " argv,
                   stderr := "", exitcode := 0, duration := 0 },
          spawned := false, leftRunning := false,
          spawnCwd := "", spawnEnv := [] } := by
  unfold execute
  rw [h]
  simp [joinArgv, List.all_map, Function.comp, List.filterMap_map]

/-- Closed witness for `dry_run_intercepts_everything`. -/
theorem dry_run_intercepts_everything_witness :
    execute ⟨"/app/work", 60, true, []⟩ [some "kubectl", some "get"]
      (some "/tmp") (some [("A", "B")]) (some 5) (.spawnFail "boom") =
    .ok { res := { success := true, stdout := "DRY RUN: kubectl get",
                   stderr := "", exitcode := 0, duration := 0 },
          spawned := false, leftRunning := false,
          spawnCwd := "", spawnEnv := [] } :=
  dry_run_intercepts_everything ⟨"/app/work", 60, true, []⟩ rfl
    ["kubectl", "get"] (some "/tmp") (some [("A", "B")]) (some 5)
    (.spawnFail "boom")

/-- C4: for every command given as a list of strings, `execute` returns a
structured result rather than raising (every branch of the model is
`Except.ok`), and a spawn failure in particular is caught and reported as
`succeeded=false`, `exitCode=-1`, with the diagnostic in `stderr`. -/
theorem execute_never_raises (cfg : ExecConfig) (argv : List String) :
    (∀ (cwd : Option String) (env : Option (List (String × String)))
       (t : Option Nat) (b : ProcBehavior),
       ∃ out, execute cfg (argv.map some) cwd env t b = .ok out)
    ∧ (∀ (cwd : Option String) (env : Option (List (String × String)))
         (t : Option Nat) (diag : String),
         cfg.dryRun = false → argv ≠ [] →
         execute cfg (argv.map some) cwd env t (.spawnFail diag) =
         .ok { res := { success := false, stdout := "", stderr := diag,
                        exitcode := -1, duration := 0 },
               spawned := false, leftRunning := false,
               spawnCwd := cwd.getD cfg.workdir,
               spawnEnv := mergeEnv cfg.baseEnv env }) := by
  constructor
  · intro cwd env t b
    unfold execute
    split
    · simp [joinArgv, List.all_map, Function.comp, List.filterMap_map]
    · split
      · split
        · exact ⟨_, rfl⟩
        · split <;> exact ⟨_, rfl⟩
      · exact ⟨_, rfl⟩
  · intro cwd env t diag hdry hne
    have h1 : ((argv.map some).all Option.isSome
        && !(argv.map some).isEmpty) = true := by
      cases argv with
      | nil => exact absurd rfl hne
      | cons a l => simp [List.all_map, Function.comp]
    unfold execute
    rw [hdry]
    simp only [h1]
    rfl

/-- Closed witness for `execute_never_raises`. -/
theorem execute_never_raises_witness :
    (∃ out, execute ⟨"/app/work", 60, false, []⟩ [some "ls"] none none none
       (.runs 0 "" "" 0) = .ok out)
    ∧ execute ⟨"/app/work", 60, false, []⟩ [some "nosuchbin"] none none none
        (.spawnFail "No such file or directory: nosuchbin") =
      .ok { res := { success := false, stdout := "",
                     stderr := "No such file or directory: nosuchbin",
                     exitcode := -1, duration := 0 },
            spawned := false, leftRunning := false,
            spawnCwd := "/app/work", spawnEnv := [] } :=
  ⟨(execute_never_raises ⟨"/app/work", 60, false, []⟩ ["ls"]).1
      none none none (.runs 0 "" "" 0),
   (execute_never_raises ⟨"/app/work", 60, false, []⟩ ["nosuchbin"]).2
      none none none "No such file or directory: nosuchbin" rfl
      (by decide)⟩

/-- C6: in every result `execute` can produce, `succeeded` implies exit
code 0; after a normal completion (dry-run off, process finished within
the timeout) `succeeded` holds iff the exit code is 0; and the
piped-input path of `_cli_tool` satisfies the same implication. -/
theorem success_only_on_exit_zero :
    (∀ (cfg : ExecConfig) (argv : List (Option String))
       (cwd : Option String) (env : Option (List (String × String)))
       (t : Option Nat) (b : ProcBehavior) (out : ExecOutcome),
       execute cfg argv cwd env t b = .ok out →
       out.res.success = true → out.res.exitcode = 0)
    ∧ (∀ (cfg : ExecConfig) (argv : List String) (cwd : Option String)
         (env : Option (List (String × String))) (t : Option Nat)
         (ec : Int) (o er : String) (rt : Nat),
         cfg.dryRun = false → argv ≠ [] → rt ≤ effTimeout cfg t →
         ∃ out, execute cfg (argv.map some) cwd env t (.runs ec o er rt) =
             .ok out
           ∧ (out.res.success = true ↔ out.res.exitcode = 0)
           ∧ out.res.exitcode = ec)
    ∧ (∀ (ctx : Ctx) (cmd : List (Option String)) (st : St)
         (d : ToolDict) (st1 : St),
         pipedSpawn ctx cmd st = (.ok d, st1) →
         dget d "success" = some (.b true) →
         dget d "exitcode" = some (.i 0)) := by
  refine ⟨?_, ?_, ?_⟩
  · intro cfg argv cwd env t b out h hs
    unfold execute at h
    split at h
    · split at h
      · cases h
        rfl
      · cases h
    · split at h
      · split at h
        · cases h
          simp at hs
        · split at h
          · cases h
            simp at hs
          · cases h
            simp only at hs
            simpa using of_decide_eq_true hs
      · cases h
        simp at hs
  · intro cfg argv cwd env t ec o er rt hdry hne hrt
    have h1 : ((argv.map some).all Option.isSome
        && !(argv.map some).isEmpty) = true := by
      cases argv with
      | nil => exact absurd rfl hne
      | cons a l => simp [List.all_map, Function.comp]
    refine ⟨⟨⟨decide (ec = 0), o, er, ec, rt⟩, true, false,
      cwd.getD cfg.workdir, mergeEnv cfg.baseEnv env⟩, ?_, ?_, rfl⟩
    · unfold execute
      rw [hdry]
      simp only [h1]
      show (if effTimeout cfg t < rt then _ else _) = _
      rw [if_neg (Nat.not_lt.mpr hrt)]
    · simp [decide_eq_true_eq]
  · intro ctx cmd st d st1 h hs
    unfold pipedSpawn at h
    dsimp only at h
    split at h
    · cases hb : ctx.oracle st.k with
      | spawnFail diag =>
          rw [hb] at h
          simp at h
      | runs ec outS errS rt =>
          rw [hb] at h
          dsimp only at h
          injection h with h1 h2
          injection h1 with h3
          rw [← h3] at hs ⊢
          simp [dget] at hs ⊢
          simp [hs]
    · cases h

/-- Closed witness for `success_only_on_exit_zero`. -/
theorem success_only_on_exit_zero_witness :
    (({ res := ⟨true, "ok", "", 0, 1⟩, spawned := true, leftRunning := false,
        spawnCwd := "/app/work", spawnEnv := [] } : ExecOutcome).res.exitcode
      = 0)
    ∧ (∃ out, execute ⟨"/app/work", 60, false, []⟩ [some "ls"] none none
          none (.runs 0 "" "" 0) = .ok out
        ∧ (out.res.success = true ↔ out.res.exitcode = 0)
        ∧ out.res.exitcode = 0)
    ∧ dget [("success", .b true), ("stdout", .s ""), ("stderr", .s ""),
        ("exitcode", .i 0)] "exitcode" = some (.i 0) :=
  ⟨success_only_on_exit_zero.1 ⟨"/app/work", 60, false, []⟩ [some "ls"]
      none none none (.runs 0 "ok" "" 1)
      ⟨⟨true, "ok", "", 0, 1⟩, true, false, "/app/work", []⟩ rfl rfl,
   success_only_on_exit_zero.2.1 ⟨"/app/work", 60, false, []⟩ ["ls"]
      none none none 0 "" "" 0 rfl (by decide) (by decide),
   success_only_on_exit_zero.2.2 ctx0 [some "jq"] st0
      [("success", .b true), ("stdout", .s ""), ("stderr", .s ""),
       ("exitcode", .i 0)] ⟨1, [[some "jq"]]⟩ rfl rfl⟩

/-- A `tools/call` request message for the named tool with the given
argument bindings. -/
def toolsCallMsg (rid : JVal) (name : String) (args : Dict) : Message :=
  ⟨some (.s "2.0"), some rid, some (.s "tools/call"),
   some (.obj [("name", .s name), ("arguments", .obj args)])⟩

/-- A `tools/list` request message. -/
def toolsListMsg (rid : JVal) : Message :=
  ⟨some (.s "2.0"), some rid, some (.s "tools/list"), some (.obj [])⟩

/-- C1: faults raised while handling a message are caught at the
dispatcher boundary.  (i) A `tools/call` naming an unregistered tool gets
an internal-error response (code -32603) carrying the fault text;
(ii) in general, any exception escaping the routing chain of a validated
message becomes a -32603 error response instead of propagating (the
dispatcher is a total function); (iii) `tools/list` still returns the
full registry from any state; (iv) hence on one connection, a faulting
`tools/call` followed by `tools/list` yields exactly the error response
and then the full tool list. -/
theorem dispatcher_contains_faults (ctx : Ctx) (st : St) (rid rid2 : JVal)
    (name : String) (hname : name ∉ toolNames) :
    (processMessage ctx (toolsCallMsg rid name []) st =
      (some ⟨rid, none,
        some ⟨-32603, "Internal error: Unknown tool: " ++ name⟩⟩, st))
    ∧ (∀ (m : Message) (e : String) (st1 st2 : St),
        validateMessage m = true →
        routeMessage ctx m st1 = (.error e, st2) →
        processMessage ctx m st1 =
          (some ⟨m.id.getD .null, none,
            some ⟨-32603, "Internal error: " ++ e⟩⟩, st2))
    ∧ (∀ (st3 : St), processMessage ctx (toolsListMsg rid2) st3 =
        (some ⟨rid2, some (.toolsList toolsRegistry), none⟩, st3))
    ∧ wsLoop ctx [.good (toolsCallMsg rid name []),
        .good (toolsListMsg rid2)] st =
      ([⟨rid, none,
          some ⟨-32603, "Internal error: Unknown tool: " ++ name⟩⟩,
        ⟨rid2, some (.toolsList toolsRegistry), none⟩], st) := by
  have hcont : toolNames.contains name = false := by
    simpa using hname
  have hcall : processMessage ctx (toolsCallMsg rid name []) st =
      (some ⟨rid, none,
        some ⟨-32603, "Internal error: Unknown tool: " ++ name⟩⟩, st) := by
    unfold processMessage routeMessage handleToolsCall
    simp [toolsCallMsg, validateMessage, methodIs, dget, hname, mkResponse,
      ← String.append_assoc]
  have hlist : ∀ (st3 : St), processMessage ctx (toolsListMsg rid2) st3 =
      (some ⟨rid2, some (.toolsList toolsRegistry), none⟩, st3) := by
    intro st3
    unfold processMessage routeMessage
    simp [toolsListMsg, validateMessage, methodIs, mkResponse]
  refine ⟨hcall, ?_, hlist, ?_⟩
  · intro m e st1 st2 hv hroute
    unfold processMessage
    rw [hv]
    simp only [Bool.not_true, Bool.false_eq_true, if_false, hroute]
    rfl
  · simp [wsLoop, hcall, hlist]

/-- Closed witness for `dispatcher_contains_faults`. -/
theorem dispatcher_contains_faults_witness :
    (processMessage ctx0 (toolsCallMsg (.i 7) "no_such_tool" []) st0 =
      (some ⟨.i 7, none,
        some ⟨-32603, "Internal error: Unknown tool: no_such_tool"⟩⟩, st0))
    ∧ (∀ (m : Message) (e : String) (st1 st2 : St),
        validateMessage m = true →
        routeMessage ctx0 m st1 = (.error e, st2) →
        processMessage ctx0 m st1 =
          (some ⟨m.id.getD .null, none,
            some ⟨-32603, "Internal error: " ++ e⟩⟩, st2))
    ∧ (∀ (st3 : St), processMessage ctx0 (toolsListMsg (.i 8)) st3 =
        (some ⟨.i 8, some (.toolsList toolsRegistry), none⟩, st3))
    ∧ wsLoop ctx0 [.good (toolsCallMsg (.i 7) "no_such_tool" []),
        .good (toolsListMsg (.i 8))] st0 =
      ([⟨.i 7, none,
          some ⟨-32603, "Internal error: Unknown tool: no_such_tool"⟩⟩,
        ⟨.i 8, some (.toolsList toolsRegistry), none⟩], st0) :=
  dispatcher_contains_faults ctx0 st0 (.i 7) (.i 8) "no_such_tool"
    (by decide)

/-- C10: a WebSocket text frame whose payload is not valid JSON produces,
at its position in the outbound stream, exactly the parse-error response —
whose id slot is the literal integer 0 and whose code is -32700 — and the
receive loop continues with the remaining frames as if the bad frame had
not been there. -/
theorem ws_parse_error_is_id_zero_and_loop_continues (ctx : Ctx) :
    (∀ (fs1 fs2 : List Frame) (st : St),
      wsLoop ctx (fs1 ++ .badJson :: fs2) st =
        ((wsLoop ctx fs1 st).1 ++ parseErrorResponse ::
            (wsLoop ctx fs2 (wsLoop ctx fs1 st).2).1,
         (wsLoop ctx fs2 (wsLoop ctx fs1 st).2).2))
    ∧ parseErrorResponse =
        ⟨.i 0, none, some ⟨-32700, "Parse error"⟩⟩ := by
  constructor
  · intro fs1 fs2 st
    induction fs1 generalizing st with
    | nil => simp [wsLoop]
    | cons f rest ih =>
      cases f with
      | good m => simp [wsLoop, ih]
      | badJson => simp [wsLoop, ih]
  · rfl

/-- A message's method string cannot satisfy two different `methodIs`
checks at once. -/
theorem methodIs_ne (m : Message) (a b : String) (h : methodIs m a = true)
    (hab : a ≠ b) : methodIs m b = false := by
  unfold methodIs at h ⊢
  cases hm : m.method with
  | none => rfl
  | some v =>
    cases v with
    | s w =>
        simp only [hm] at h
        have hw : w = a := eq_of_beq h
        subst hw
        exact beq_eq_false_iff_ne.mpr hab
    | i w => rfl
    | b w => rfl
    | null => rfl
    | arr es => rfl
    | obj fs => rfl

/-- C5 counterexample: a message without an id whose method is
`tools/list` — a notification on a routed method — does produce a
response (with a null id), refuting the claim that no response is
produced for every method value. -/
theorem notification_gets_response_counterexample :
    (processMessage ctx0
      ⟨some (.s "2.0"), none, some (.s "tools/list"), none⟩ st0).1 =
    some ⟨.null, some (.toolsList toolsRegistry), none⟩ := by
  rfl

/-- C5 amended: a message without an id produces no response exactly when
it passes envelope validation and its method is `notifications/cancelled`;
for every other method (routed or unknown) and for envelope-invalid
messages, `process_message` does return a response. -/
theorem notification_response_iff_cancelled (ctx : Ctx) (m : Message)
    (st : St) (hid : m.id = none) :
    (processMessage ctx m st).1 = none ↔
      (validateMessage m = true
        ∧ methodIs m "notifications/cancelled" = true) := by
  unfold processMessage
  cases hv : validateMessage m with
  | false => simp [hv]
  | true =>
    simp only [hv, Bool.not_true, Bool.false_eq_true, if_false]
    unfold routeMessage
    cases h1 : methodIs m "initialize" with
    | true =>
        rcases hI : handleInitialize (m.params.getD (.obj [])) with e | b <;>
          simp [h1, hI, Except.map, hv,
            methodIs_ne m "initialize" "notifications/cancelled" h1
              (by decide)]
    | false =>
    cases h2 : methodIs m "tools/list" with
    | true =>
        simp [h1, h2, hv,
          methodIs_ne m "tools/list" "notifications/cancelled" h2
            (by decide)]
    | false =>
    cases h3 : methodIs m "tools/call" with
    | true =>
        rcases hc : handleToolsCall ctx (m.params.getD (.obj [])) st
          with ⟨r, st1⟩
        rcases r with e | b <;>
          simp [h1, h2, h3, hc, hv,
            methodIs_ne m "tools/call" "notifications/cancelled" h3
              (by decide)]
    | false =>
    cases h4 : methodIs m "resources/list" with
    | true =>
        simp [h1, h2, h3, h4, hv,
          methodIs_ne m "resources/list" "notifications/cancelled" h4
            (by decide)]
    | false =>
    cases h5 : methodIs m "resources/read" with
    | true =>
        rcases hR : handleResourcesRead ctx (m.params.getD (.obj []))
          with e | b <;>
          simp [h1, h2, h3, h4, h5, hR, Except.map, hv,
            methodIs_ne m "resources/read" "notifications/cancelled" h5
              (by decide)]
    | false =>
    cases h6 : methodIs m "notifications/cancelled" with
    | true => simp [h1, h2, h3, h4, h5, h6, hv]
    | false => simp [h1, h2, h3, h4, h5, h6, hv]

/-- Closed witness for `notification_response_iff_cancelled`. -/
theorem notification_response_iff_cancelled_witness :
    (processMessage ctx0
      ⟨some (.s "2.0"), none, some (.s "notifications/cancelled"), none⟩
      st0).1 = none :=
  (notification_response_iff_cancelled ctx0
    ⟨some (.s "2.0"), none, some (.s "notifications/cancelled"), none⟩
    st0 rfl).mpr ⟨rfl, rfl⟩

/-- Lookup in a one-binding dict misses every other key. -/
theorem dget_single_ne (k : String) (v : JVal) (key : String)
    (h : k ≠ key) : dget [(k, v)] key = none := by
  simp [dget, List.find?, h]

/-- The argv `_kubectl_get` builds when `resource` is absent: the
`resource` slot is the Python `None` hole. -/
def kubectlGetHoleArgv : List (Option String) :=
  [some "kubectl", some "get", some "-n", some "default", none,
   some "-o", some "json"]

/-- C7 counterexample: `kubectl_get` declares `resource` as required, yet
a `tools/call` with empty arguments is not rejected by any validation:
the handler runs, the executor is invoked with the `None` hole in the
argv, and the dispatcher returns a normal result response (no error
object, no mention of the missing field) wrapping the spawn-failure
execution result. -/
theorem missing_required_field_not_validated_counterexample :
    requiredOf "kubectl_get" = ["resource"]
    ∧ processMessage ctx0 (toolsCallMsg (.i 1) "kubectl_get" []) st0 =
        (some ⟨.i 1, some (.toolsCallContent
          [("success", .b false), ("stdout", .s ""),
           ("stderr", .s "program arguments must be str"),
           ("exitcode", .i (-1)), ("duration", .i 0)]), none⟩,
         ⟨1, [kubectlGetHoleArgv]⟩) :=
  ⟨rfl, rfl⟩

/-- C7 amended: the dispatcher performs no `inputSchema` validation.  A
`tools/call` of `kubectl_get` whose arguments lack `resource` reaches the
handler, which invokes the executor with a `None` argv slot; the spawn
fails and the failed execution result (`succeeded=false`) is wrapped in a
normal result response — no ValidationError-style error response naming
the field is produced.  Unknown extra argument fields are ignored: an
arbitrary binding outside the declared schema fields leaves the outcome
unchanged. -/
theorem missing_required_field_flows_to_executor (ctx : Ctx) (st : St)
    (rid : JVal) (k : String) (v : JVal)
    (hdry : ctx.cfg.dryRun = false)
    (hk : k ∉ ["resource", "namespace", "name", "output"]) :
    processMessage ctx (toolsCallMsg rid "kubectl_get" [(k, v)]) st =
      processMessage ctx (toolsCallMsg rid "kubectl_get" []) st
    ∧ processMessage ctx (toolsCallMsg rid "kubectl_get" []) st =
        (some ⟨rid, some (.toolsCallContent
          [("success", .b false), ("stdout", .s ""),
           ("stderr", .s "program arguments must be str"),
           ("exitcode", .i (-1)), ("duration", .i 0)]), none⟩,
         ⟨st.k + 1, st.calls ++ [kubectlGetHoleArgv]⟩) := by
  have hk1 : k ≠ "resource" := by intro h; exact hk (by simp [h])
  have hk2 : k ≠ "namespace" := by intro h; exact hk (by simp [h])
  have hk3 : k ≠ "name" := by intro h; exact hk (by simp [h])
  have hk4 : k ≠ "output" := by intro h; exact hk (by simp [h])
  constructor
  · unfold processMessage routeMessage handleToolsCall executeTool
      kubectlGet callExec
    simp [toolsCallMsg, validateMessage, methodIs, hk1, hk2, hk3, hk4,
      dget, pyTruthy, argD, argOf]
  · unfold processMessage routeMessage handleToolsCall executeTool
      kubectlGet callExec execute
    simp [toolsCallMsg, validateMessage, methodIs, dget, pyTruthy, argD,
      argOf, hdry, mkResponse, execResultDict, kubectlGetHoleArgv,
      joinArgv, toolNames, toolsRegistry]

/-- Closed witness for `missing_required_field_flows_to_executor`. -/
theorem missing_required_field_flows_to_executor_witness :
    processMessage ctx0
        (toolsCallMsg (.i 1) "kubectl_get" [("verbose", .b true)]) st0 =
      processMessage ctx0 (toolsCallMsg (.i 1) "kubectl_get" []) st0
    ∧ processMessage ctx0 (toolsCallMsg (.i 1) "kubectl_get" []) st0 =
        (some ⟨.i 1, some (.toolsCallContent
          [("success", .b false), ("stdout", .s ""),
           ("stderr", .s "program arguments must be str"),
           ("exitcode", .i (-1)), ("duration", .i 0)]), none⟩,
         ⟨st0.k + 1, st0.calls ++ [kubectlGetHoleArgv]⟩) :=
  missing_required_field_flows_to_executor ctx0 st0 (.i 1) "verbose"
    (.b true) rfl (by decide)

/-- The routing table of `process_message`, in source order. -/
def routedMethods : List String :=
  ["initialize", "tools/list", "tools/call", "resources/list",
   "resources/read", "notifications/cancelled"]

/-- C8: for a validated request carrying an id, (i) every response the
dispatcher returns echoes that id — on result and error branches alike —
and (ii) a method outside the routing table gets exactly the
method-not-found response (code -32601) with that id. -/
theorem response_echoes_request_id (ctx : Ctx) (m : Message) (st : St)
    (i : JVal) (hv : validateMessage m = true) (hid : m.id = some i) :
    (∀ (r : Response) (st1 : St),
      processMessage ctx m st = (some r, st1) → r.id = i)
    ∧ (routedMethods.all (fun s => !methodIs m s) = true →
        processMessage ctx m st =
          (some ⟨i, none,
            some ⟨-32601, "Method not found: " ++ pyStrGet m.method⟩⟩, st)) := by
  have hmk : ∀ (a : Option ResBody) (b : Option ErrObj),
      (mkResponse i a b).id = i := by
    intro a b
    unfold mkResponse
    split <;> rfl
  constructor
  · intro r st1 h
    unfold processMessage at h
    rw [hv] at h
    simp only [Bool.not_true, Bool.false_eq_true, if_false] at h
    rw [hid] at h
    simp only [Option.getD_some] at h
    split at h
    · rw [Prod.mk.injEq] at h
      obtain ⟨h1, -⟩ := h
      rw [← Option.some.inj h1]
      exact hmk _ _
    · rw [Prod.mk.injEq] at h
      obtain ⟨h1, -⟩ := h
      cases h1
    · rw [Prod.mk.injEq] at h
      obtain ⟨h1, -⟩ := h
      rw [← Option.some.inj h1]
      exact hmk _ _
    · rw [Prod.mk.injEq] at h
      obtain ⟨h1, -⟩ := h
      rw [← Option.some.inj h1]
      exact hmk _ _
  · intro hall
    simp only [routedMethods, List.all_cons, List.all_nil, Bool.and_true,
      Bool.and_eq_true, Bool.not_eq_true'] at hall
    obtain ⟨h1, h2, h3, h4, h5, h6⟩ := hall
    unfold processMessage routeMessage
    simp [hv, hid, h1, h2, h3, h4, h5, h6, mkResponse]

/-- The result carried by an `executor.execute` call outcome (failure
side is never reached for a well-formed argv). -/
def execResD : Except String ExecResult → ExecResult
  | .ok r => r
  | .error _ => ⟨false, "", "", 0, 0⟩

/-- Helper: `execute` returns a structured result (never an exception) whenever
the argv is a non-empty list of strings. -/
theorem execute_clean_ok (cfg : ExecConfig) (cwd : Option String)
    (env : Option (List (String × String))) (t : Option Nat)
    (b : ProcBehavior) (argv : List (Option String))
    (h1 : argv.all Option.isSome = true) (h2 : argv.isEmpty = false) :
    ∃ o, execute cfg argv cwd env t b = .ok o := by
  unfold execute
  split
  · have hj : joinArgv argv =
        some (String.intercalate " " (argv.filterMap id)) := by
      unfold joinArgv
      rw [h1]
      rfl
    rw [hj]
    exact ⟨_, rfl⟩
  · rw [h1, h2]
    cases b with
    | spawnFail d => exact ⟨_, rfl⟩
    | runs ec o er rt =>
        dsimp only
        by_cases hlt : effTimeout cfg t < rt
        · rw [if_pos hlt]
          exact ⟨_, rfl⟩
        · rw [if_neg hlt]
          exact ⟨_, rfl⟩

/-- C9: in `_git_push` (branch supplied), the commits-to-push check runs
`git log` with the literal, un-interpolated revision string (the source
line has no f-prefix, so `{branch}` stays verbatim), and whenever that
command's stripped stdout is empty — the command itself may well have
failed, since only stdout is consulted — the handler returns early with
`success=true` and the "No commits to push" message, and no further
command (in particular no `git push`) is executed: the call trace is
extended by the check argv alone. -/
theorem git_push_literal_check_early_return (ctx : Ctx) (args : Dict)
    (st : St) (br : String)
    (hrepo : ctx.gitRepoExists = true)
    (hbr : dget args "branch" = some (.s br)) (hbrne : br ≠ "")
    (hout : pyStrip (execResD (callExec ctx gitPushCheckArgv
        (some ctx.k8sRepoPath) none st).1).stdout = "") :
    gitPushCheckArgv =
      [some "git", some "log", some "origin/\x7bbranch\x7d..HEAD",
       some "--oneline"]
    ∧ gitPush ctx args st =
        (.ok [("success", .b true),
              ("message", .s ("No commits to push to origin/" ++ br)),
              ("branch", .s br)],
         ⟨st.k + 1, st.calls ++ [gitPushCheckArgv]⟩) := by
  refine ⟨rfl, ?_⟩
  have hbe : br.isEmpty = false := by
    cases hbe2 : br.isEmpty with
    | true => exact absurd (String.isEmpty_iff br |>.mp hbe2) hbrne
    | false => rfl
  obtain ⟨o, ho⟩ := execute_clean_ok ctx.cfg (some ctx.k8sRepoPath) none
    none (ctx.oracle st.k) gitPushCheckArgv rfl rfl
  have hce : callExec ctx gitPushCheckArgv (some ctx.k8sRepoPath) none st =
      (.ok o.res, ⟨st.k + 1, st.calls ++ [gitPushCheckArgv]⟩) := by
    unfold callExec
    dsimp only
    rw [ho]
  rw [hce] at hout
  unfold execResD at hout
  simp only at hout
  unfold gitPush gitPushBody resolveBranch
  simp only [hrepo, Bool.not_true, Bool.false_eq_true, if_false]
  simp [hbr, pyTruthy, hbe, hce, hout, pyStrGet]

/-- A validated request with an id and a method outside the routing
table. -/
def unknownMethodMsg : Message :=
  ⟨some (.s "2.0"), some (.s "abc"), some (.s "frobnicate"), none⟩

/-- Closed witness for `response_echoes_request_id`. -/
theorem response_echoes_request_id_witness :
    ((⟨.s "abc", none,
        some ⟨-32601, "Method not found: frobnicate"⟩⟩ : Response).id =
      .s "abc")
    ∧ processMessage ctx0 unknownMethodMsg st0 =
        (some ⟨.s "abc", none,
          some ⟨-32601, "Method not found: frobnicate"⟩⟩, st0) :=
  ⟨(response_echoes_request_id ctx0 unknownMethodMsg st0 (.s "abc")
      rfl rfl).1 _ st0 rfl,
   (response_echoes_request_id ctx0 unknownMethodMsg st0 (.s "abc")
      rfl rfl).2 (by decide)⟩

/-- A context whose every process invocation fails with exit code 128 and
empty stdout — the behaviour of `git log` on the unknown literal revision
`origin/{branch}..HEAD`. -/
def ctx9 : Ctx :=
  { cfg := ⟨"/app/work", 60, false, []⟩, k8sRepoPath := "/app/k8s-repo",
    gitRepoExists := true, nowIso := "2026-10-12T00:00:00",
    jsonLoads := fun _ => none,
    oracle := fun _ =>
      .runs 128 "" "fatal: bad revision origin/\x7bbranch\x7d..HEAD" 0 }

/-- Closed witness for `git_push_literal_check_early_return`: the check
command fails (exit 128) with empty stdout, and the handler still
returns early with success and runs no push. -/
theorem git_push_literal_check_early_return_witness :
    gitPushCheckArgv =
      [some "git", some "log", some "origin/\x7bbranch\x7d..HEAD",
       some "--oneline"]
    ∧ gitPush ctx9 [("branch", .s "main")] st0 =
        (.ok [("success", .b true),
              ("message", .s "No commits to push to origin/main"),
              ("branch", .s "main")],
         ⟨1, [gitPushCheckArgv]⟩) :=
  git_push_literal_check_early_return ctx9 [("branch", .s "main")] st0
    "main" rfl rfl (by decide) (by decide)
